import Mathlib

/- Verification of the forex trade calculator/tracker: the instrument
economics engine and the trade ledger store.  The engine exists in two
near-duplicate copies, `trade_tracker.py` (module-level functions) and
`trade_tracker_1.py` (`TradeCalculator` static methods); where they differ
both are embedded.  Python floats are modelled by `ℚ`; a raised, uncaught
Python exception is modelled by `Except.error`. -/

namespace ForexCalc

/-- Python runtime exceptions surfaced by the embedded functions.
`zeroDivisionError` is Python's ZeroDivisionError (raised by `x / 0.0` on
floats).  `invalidNumeric` is modelled from the spec: the `InvalidNumeric`
engine error of the design document's error taxonomy; no code in the
repository ever raises it. -/
inductive PyExn where
  | zeroDivisionError
  | invalidNumeric
deriving DecidableEq

/-- The division expression shared by both `calc_pips` implementations:
`(price - entry) / pip_size` when the direction string equals "Long",
`(entry - price) / pip_size` otherwise. -/
def pips_formula (entry price pip_size : ℚ) (direction : String) : ℚ :=
  if direction = "Long" then (price - entry) / pip_size
  else (entry - price) / pip_size

/-- `calc_pips` of trade_tracker.py (lines 32-37) and
`TradeCalculator.calc_pips` of trade_tracker_1.py (lines 112-115).  Both
compute the same expression on float inputs; the `try/except` in the first
file only guards the `float(...)` conversions, which cannot fail on values
that are already floats, so both copies raise an uncaught
ZeroDivisionError when `pip_size == 0`. -/
def calc_pips (entry price pip_size : ℚ) (direction : String) : Except PyExn ℚ :=
  if pip_size = 0 then .error .zeroDivisionError
  else .ok (pips_formula entry price pip_size direction)

/-- `pip_value_usd` of trade_tracker.py (lines 39-47): `base = pip*contract`;
returned unchanged when the quote is USD; otherwise divided by the rate
unless the rate is 0, in which case the undivided base is returned. -/
def pip_value_usd (pip_size contract_size : ℚ) (quote_usd : Bool) (quote_to_usd_rate : ℚ) : ℚ :=
  let base := pip_size * contract_size
  if quote_usd then base
  else if quote_to_usd_rate = 0 then base
  else base / quote_to_usd_rate

/-- The spec's `pipValueUSD` contract, written from the spec's words for
comparison with the source embedding: `pipSize*contractSize` when the quote
is USD, that value divided by `quoteToUsdRate` otherwise, except that the
undivided value is returned when `quoteToUsdRate == 0`. -/
def pipValueUSD_spec (pip_size contract_size : ℚ) (quote_usd : Bool) (quote_to_usd_rate : ℚ) : ℚ :=
  if quote_usd then pip_size * contract_size
  else if quote_to_usd_rate = 0 then pip_size * contract_size
  else pip_size * contract_size / quote_to_usd_rate

/-- `usd_from_pips` (both files): `pips * pip_value_per_lot * lots`. -/
def usd_from_pips (pips pip_value_per_lot lots : ℚ) : ℚ :=
  pips * pip_value_per_lot * lots

/-- `price_from_usd_target` of trade_tracker.py (lines 52-58). -/
def price_from_usd_target (entry : ℚ) (direction : String) (usd_target pip_size contract_size : ℚ)
    (quote_usd : Bool) (quote_rate lots : ℚ) : Option ℚ :=
  let pip_val := pip_value_usd pip_size contract_size quote_usd quote_rate
  if pip_val = 0 ∨ lots = 0 then none
  else
    let pips_needed := usd_target / (pip_val * lots)
    let price_diff := pips_needed * pip_size
    some (if direction = "Long" then entry + price_diff else entry - price_diff)

namespace TradeCalculator

/-- `TradeCalculator.pip_value_usd` of trade_tracker_1.py (lines 117-122):
`base if quote_usd else base / quote_to_usd_rate`, with no zero-rate guard,
so a rate of 0 with a non-USD quote raises ZeroDivisionError. -/
def pip_value_usd (pip_size contract_size : ℚ) (quote_usd : Bool) (quote_to_usd_rate : ℚ) : Except PyExn ℚ :=
  let base := pip_size * contract_size
  if quote_usd then .ok base
  else if quote_to_usd_rate = 0 then .error .zeroDivisionError
  else .ok (base / quote_to_usd_rate)

/-- `TradeCalculator.price_from_usd_target` of trade_tracker_1.py
(lines 129-139): calls `TradeCalculator.pip_value_usd` (which can raise),
then returns `None` when the pip value or the lots are 0, else the solved
price. -/
def price_from_usd_target (entry : ℚ) (direction : String) (usd_target pip_size contract_size : ℚ)
    (quote_usd : Bool) (quote_rate lots : ℚ) : Except PyExn (Option ℚ) :=
  match pip_value_usd pip_size contract_size quote_usd quote_rate with
  | .error e => .error e
  | .ok pip_val =>
    if pip_val = 0 ∨ lots = 0 then .ok none
    else
      let pips_needed := usd_target / (pip_val * lots)
      let price_diff := pips_needed * pip_size
      .ok (some (if direction = "Long" then entry + price_diff else entry - price_diff))

end TradeCalculator

/-- The columns of a trade row that the ledger claims exercise: creation
timestamp (modelled as a natural number), the filterable text columns, and
the `realized_usd` column, which is NULL when no exit price was supplied. -/
structure TradeData where
  timestamp : ℕ
  instrument : String
  direction : String
  realized_usd : Option ℚ
deriving DecidableEq

/-- A stored row: the data plus the AUTOINCREMENT integer id the database
assigns on insert. -/
structure Trade extends TradeData where
  id : ℕ
deriving DecidableEq

/-- The filterable columns of the `trades` table used by `get_trades`. -/
inductive TradeField where
  | id
  | timestamp
  | instrument
  | direction
deriving DecidableEq

/-- A column value: integer or text. -/
inductive FieldVal where
  | nat (n : ℕ)
  | str (s : String)
deriving DecidableEq

/-- Column projection used by the WHERE clauses. -/
def Trade.getField (t : Trade) : TradeField → FieldVal
  | .id => .nat t.id
  | .timestamp => .nat t.timestamp
  | .instrument => .str t.instrument
  | .direction => .str t.direction

/-- The `filters` dictionary of `get_trades`: per field an optional value;
entries whose value is `None` are skipped when building the WHERE clause. -/
abbrev Filters := List (TradeField × Option FieldVal)

/-- AND-semantics of the WHERE clause built by `get_trades` (lines 75-82 of
trade_tracker_1.py): a row matches when every filter with a non-None value
equals the row's column. -/
def matches_filters (filters : Filters) (t : Trade) : Bool :=
  filters.all fun fv =>
    match fv.2 with
    | none => true
    | some v => t.getField fv.1 = v

/-- Insertion step for ORDER BY timestamp DESC. -/
def insert_desc (t : Trade) : List Trade → List Trade
  | [] => [t]
  | u :: us => if t.timestamp ≤ u.timestamp then u :: insert_desc t us else t :: u :: us

/-- ORDER BY timestamp DESC, as an insertion sort. -/
def sort_desc : List Trade → List Trade
  | [] => []
  | t :: ts => insert_desc t (sort_desc ts)

/-- The SELECT of `get_trades`: WHERE all filters, ORDER BY timestamp DESC,
LIMIT `limit`. -/
def run_query (trades : List Trade) (limit : ℕ) (filters : Filters) : List Trade :=
  (sort_desc (trades.filter (matches_filters filters))).take limit

/-- One read-cache entry of `TradeDB`: the wall-clock instant the query ran
and its result. -/
structure CacheEntry where
  timestamp : ℕ
  data : List Trade
deriving DecidableEq

/-- The `TradeDB` state of trade_tracker_1.py: the `trades` table, the
`_cache` dictionary keyed by `(limit, filters)`, the next AUTOINCREMENT id,
and sqlite's connection-wide `total_changes` counter (the total number of
rows inserted/updated/deleted since the connection opened). -/
structure TradeDB where
  trades : List Trade
  cache : List ((ℕ × Filters) × CacheEntry)
  next_id : ℕ
  total_changes : ℕ
deriving DecidableEq

/-- A freshly opened database: no rows, empty cache, ids start at 1, no
changes recorded on the connection yet. -/
def TradeDB.empty : TradeDB := ⟨[], [], 1, 0⟩

/-- `_cache_expiry = timedelta(minutes=5)`, in seconds. -/
def cache_expiry : ℕ := 5 * 60

/-- `TradeDB.add_trade` (lines 54-63): INSERT the row with the next id,
clear the whole cache, return the new id.  The INSERT bumps the
connection's `total_changes` by one. -/
def add_trade (db : TradeDB) (td : TradeData) : ℕ × TradeDB :=
  let tid := db.next_id
  (tid, { trades := db.trades ++ [{ toTradeData := td, id := tid }],
          cache := [],
          next_id := tid + 1,
          total_changes := db.total_changes + 1 })

/-- `TradeDB.delete_trade` (lines 99-104): DELETE the rows with the given
id (bumping `total_changes` by the number of rows actually deleted), clear
the cache, and return `self.conn.total_changes > 0` — the connection-wide
counter, not the number of rows this statement deleted. -/
def delete_trade (db : TradeDB) (trade_id : ℕ) : Bool × TradeDB :=
  let remaining := db.trades.filter fun t => t.id ≠ trade_id
  let tc := db.total_changes + (db.trades.length - remaining.length)
  (decide (0 < tc),
   { trades := remaining, cache := [], next_id := db.next_id, total_changes := tc })

/-- `TradeDB.get_trades` (lines 65-97): return the cached result when the
key is present and younger than `cache_expiry`; otherwise run the SELECT
and store its result in the cache stamped with the current time. -/
def get_trades (db : TradeDB) (limit : ℕ) (filters : Filters) (now : ℕ) :
    List Trade × TradeDB :=
  let key : ℕ × Filters := (limit, filters)
  match db.cache.lookup key with
  | some entry =>
    if now - entry.timestamp < cache_expiry then (entry.data, db)
    else
      let results := run_query db.trades limit filters
      (results, { db with cache := (key, ⟨now, results⟩) :: db.cache })
  | none =>
    let results := run_query db.trades limit filters
    (results, { db with cache := (key, ⟨now, results⟩) :: db.cache })

/-- The four dashboard metrics of `update_dashboard`.  `avg_win`/`avg_loss`
are `Option ℚ`: `none` models the NaN that pandas' `.mean()` produces on an
empty subset — the `or 0` in the source does not replace it, because NaN is
truthy in Python. -/
structure DashboardStats where
  total_profit : ℚ
  win_rate : ℚ
  avg_win : Option ℚ
  avg_loss : Option ℚ
deriving DecidableEq

/-- `pd.to_numeric(df['realized_usd'], errors='coerce').fillna(0)`:
undefined (NULL) realized-USD values are coerced to 0. -/
def fillna (records : List (Option ℚ)) : List ℚ :=
  records.map fun r => r.getD 0

/-- `TradeTrackerApp.update_dashboard` (lines 491-516 of
trade_tracker_1.py), restricted to the `realized_usd` column it consumes:
on an empty record list it returns early (no metrics are computed,
modelled as `none`); otherwise it coerces undefined values to 0, sums
them, divides the count of positive values by the total row count, and
takes the means of the positive and negative subsets (`none` = NaN when a
subset is empty). -/
def update_dashboard (records : List (Option ℚ)) : Option DashboardStats :=
  if records = [] then none
  else
    let vals := fillna records
    let wins := vals.filter fun v => 0 < v
    let losses := vals.filter fun v => v < 0
    some { total_profit := vals.sum,
           win_rate := (wins.length : ℚ) / (vals.length : ℚ),
           avg_win := if wins = [] then none else some (wins.sum / (wins.length : ℚ)),
           avg_loss := if losses = [] then none else some (losses.sum / (losses.length : ℚ)) }

/-- The derived-pips step of `TradeTrackerApp.save_trade` in
trade_tracker.py (lines 309-313): `calc_pips(...) if price is not None
else None`. -/
def opt_pips (entry : ℚ) (price : Option ℚ) (pip_size : ℚ) (dir : String) :
    Except PyExn (Option ℚ) :=
  match price with
  | none => .ok none
  | some p => (calc_pips entry p pip_size dir).map some

/-- The derived-USD step of `TradeTrackerApp.save_trade` in
trade_tracker.py (lines 310-314): `usd_from_pips(...) if pips is not None
else None`. -/
def opt_usd (pips : Option ℚ) (pip_val lots : ℚ) : Option ℚ :=
  match pips with
  | none => none
  | some x => some (usd_from_pips x pip_val lots)

/-- The six derived columns computed once at save time. -/
structure DerivedFields where
  pips_to_sl : Option ℚ
  usd_to_sl : Option ℚ
  pips_to_tp : Option ℚ
  usd_to_tp : Option ℚ
  realized_pips : Option ℚ
  realized_usd : Option ℚ
deriving DecidableEq

/-- The derived-field block of `TradeTrackerApp.save_trade` in
trade_tracker.py (lines 309-314), with the first raised exception (if any)
propagating. -/
def save_trade_derived (entry : ℚ) (stop tp exit_price : Option ℚ)
    (pip_size pip_val lots : ℚ) (direction : String) : Except PyExn DerivedFields :=
  match opt_pips entry stop pip_size direction,
        opt_pips entry tp pip_size direction,
        opt_pips entry exit_price pip_size direction with
  | .ok psl, .ok ptp, .ok preal =>
    .ok { pips_to_sl := psl, usd_to_sl := opt_usd psl pip_val lots,
          pips_to_tp := ptp, usd_to_tp := opt_usd ptp pip_val lots,
          realized_pips := preal, realized_usd := opt_usd preal pip_val lots }
  | .error e, _, _ => .error e
  | _, .error e, _ => .error e
  | _, _, .error e => .error e

/-- The derived-pips step of `TradeTrackerApp.save_trade` in
trade_tracker_1.py (lines 417-421): `calc_pips(...) if price else None` —
a truthiness test, so a price equal to 0 also yields None. -/
def opt_pips1 (entry : ℚ) (price : Option ℚ) (pip_size : ℚ) (dir : String) :
    Except PyExn (Option ℚ) :=
  match price with
  | none => .ok none
  | some p => if p = 0 then .ok none else (calc_pips entry p pip_size dir).map some

/-- The derived-USD step of `TradeTrackerApp.save_trade` in
trade_tracker_1.py (lines 418-422): `usd_from_pips(...) if pips else None`
— a truthiness test, so pips equal to 0 also yield None. -/
def opt_usd1 (pips : Option ℚ) (pip_val lots : ℚ) : Option ℚ :=
  match pips with
  | none => none
  | some x => if x = 0 then none else some (usd_from_pips x pip_val lots)

/-- The derived-field block of `TradeTrackerApp.save_trade` in
trade_tracker_1.py (lines 417-422). -/
def save_trade_derived1 (entry : ℚ) (stop tp exit_price : Option ℚ)
    (pip_size pip_val lots : ℚ) (direction : String) : Except PyExn DerivedFields :=
  match opt_pips1 entry stop pip_size direction,
        opt_pips1 entry tp pip_size direction,
        opt_pips1 entry exit_price pip_size direction with
  | .ok psl, .ok ptp, .ok preal =>
    .ok { pips_to_sl := psl, usd_to_sl := opt_usd1 psl pip_val lots,
          pips_to_tp := ptp, usd_to_tp := opt_usd1 ptp pip_val lots,
          realized_pips := preal, realized_usd := opt_usd1 preal pip_val lots }
  | .error e, _, _ => .error e
  | _, .error e, _ => .error e
  | _, _, .error e => .error e

/-- A nonzero pip value forces a nonzero pip size: every branch of
`pip_value_usd` is a multiple of `pip_size * contract_size`. -/
lemma pip_ne_zero_of_pip_value_ne_zero {pip_size contract_size quote_rate : ℚ} {quote_usd : Bool}
    (h : pip_value_usd pip_size contract_size quote_usd quote_rate ≠ 0) : pip_size ≠ 0 := by
  intro hp
  apply h
  simp [pip_value_usd, hp]

/-- When the non-USD zero-rate case is excluded, the trade_tracker_1 pip
value agrees with the trade_tracker one. -/
lemma TC_pip_value_usd_ok (pip_size contract_size : ℚ) (quote_usd : Bool) (rate : ℚ)
    (h : quote_usd = true ∨ rate ≠ 0) :
    TradeCalculator.pip_value_usd pip_size contract_size quote_usd rate
      = .ok (pip_value_usd pip_size contract_size quote_usd rate) := by
  cases quote_usd with
  | true => simp [TradeCalculator.pip_value_usd, pip_value_usd]
  | false =>
    rcases h with h | h
    · cases h
    · simp [TradeCalculator.pip_value_usd, pip_value_usd, h]

/-- C1: `pipValueUSD` never raises: it returns `pipSize*contractSize` when
the quote is USD, that value divided by the rate when the quote is not USD
and the rate is nonzero, and the undivided value when the rate is 0.  This
holds of `pip_value_usd` in trade_tracker.py; the
`TradeCalculator.pip_value_usd` copy in trade_tracker_1.py instead raises
ZeroDivisionError in the non-USD zero-rate case and agrees with the former
everywhere else (amended claim). -/
theorem C1_pip_value_usd (pip_size contract_size rate : ℚ) (q : Bool) :
    pip_value_usd pip_size contract_size q rate = pipValueUSD_spec pip_size contract_size q rate
  ∧ (q = false → rate = 0 →
      TradeCalculator.pip_value_usd pip_size contract_size q rate = .error .zeroDivisionError)
  ∧ (q = true ∨ rate ≠ 0 →
      TradeCalculator.pip_value_usd pip_size contract_size q rate
        = .ok (pip_value_usd pip_size contract_size q rate)) := by
  refine ⟨?_, ?_, TC_pip_value_usd_ok _ _ _ _⟩
  · simp [pip_value_usd, pipValueUSD_spec]
  · intro hq hr
    subst hq
    simp [TradeCalculator.pip_value_usd, hr]

/-- C1 witness: concrete instances of the amended claim's branches. -/
theorem C1_pip_value_usd_witness :
    TradeCalculator.pip_value_usd 2 3 true 0 = .ok (pip_value_usd 2 3 true 0)
  ∧ TradeCalculator.pip_value_usd 2 3 false 0 = .error .zeroDivisionError :=
  ⟨(C1_pip_value_usd 2 3 0 true).2.2 (Or.inl rfl),
   (C1_pip_value_usd 2 3 0 false).2.1 rfl rfl⟩

/-- C1 counterexample: the claim as stated fails on
`TradeCalculator.pip_value_usd`: at `pipSize=1, contractSize=1,
quoteIsUSD=false, rate=0` the code raises ZeroDivisionError instead of
returning the undivided value `1*1 = 1`. -/
theorem C1_counterexample :
    TradeCalculator.pip_value_usd 1 1 false 0 = .error .zeroDivisionError
  ∧ (Except.error PyExn.zeroDivisionError : Except PyExn ℚ) ≠ .ok (1 * 1) := by
  constructor
  · simp [TradeCalculator.pip_value_usd]
  · intro h
    cases h

/-- C2: `price_from_usd_target` (trade_tracker.py) is a left inverse of the
pips-to-USD chain: when it solves to a price `p` with nonzero lots and a
nonzero pip value, running `p` back through `calc_pips` and `usd_from_pips`
with the same parameters recovers the USD target exactly over `ℚ`. -/
theorem C2_left_inverse (entry usd_target pip contract rate lots p : ℚ) (q : Bool)
    (dir : String) (hU : usd_target ≠ 0) (hl : lots ≠ 0)
    (hpv : pip_value_usd pip contract q rate ≠ 0)
    (hp : price_from_usd_target entry dir usd_target pip contract q rate lots = some p) :
    ∃ pips, calc_pips entry p pip dir = .ok pips
      ∧ usd_from_pips pips (pip_value_usd pip contract q rate) lots = usd_target := by
  have hpip : pip ≠ 0 := pip_ne_zero_of_pip_value_ne_zero hpv
  rw [price_from_usd_target, if_neg (by push_neg; exact ⟨hpv, hl⟩)] at hp
  set pv := pip_value_usd pip contract q rate with hpv_def
  refine ⟨pips_formula entry p pip dir, by simp [calc_pips, hpip], ?_⟩
  have hp' := Option.some.inj hp
  by_cases hdir : dir = "Long" <;>
    · simp only [hdir, if_true, if_false, reduceIte] at hp' ⊢
      subst hp'
      rw [usd_from_pips, pips_formula]
      simp only [hdir, reduceIte]
      field_simp
      ring

/-- C2 witness: XAUUSD-style parameters, entry 100, target 50 USD, solved
price 150; the round trip recovers 50. -/
theorem C2_left_inverse_witness :
    ∃ pips, calc_pips 100 150 1 "Long" = .ok pips
      ∧ usd_from_pips pips (pip_value_usd 1 1 true 1) 1 = 50 :=
  C2_left_inverse 100 50 1 1 1 1 150 true "Long" (by norm_num) (by norm_num)
    (by norm_num [pip_value_usd]) (by norm_num [price_from_usd_target, pip_value_usd])

/-- C3: the solvability dichotomy.  For trade_tracker.py's
`price_from_usd_target` the claim holds exactly: the result is `none`
precisely when the pip value or the lots are 0, and otherwise it is
`entry ± (usdTarget/(pipValue·lots))·pipSize`.  For trade_tracker_1.py's
copy the dichotomy is broken in one case: with a non-USD quote and a zero
rate the call raises ZeroDivisionError before the solvability check;
everywhere else it returns `.ok` of exactly the trade_tracker.py result
(amended claim). -/
theorem C3_solvability (entry usd_target pip contract rate lots : ℚ) (q : Bool) (dir : String) :
    (price_from_usd_target entry dir usd_target pip contract q rate lots = none
        ↔ pip_value_usd pip contract q rate = 0 ∨ lots = 0)
  ∧ (pip_value_usd pip contract q rate ≠ 0 → lots ≠ 0 →
      price_from_usd_target entry dir usd_target pip contract q rate lots
        = some (if dir = "Long"
            then entry + usd_target / (pip_value_usd pip contract q rate * lots) * pip
            else entry - usd_target / (pip_value_usd pip contract q rate * lots) * pip))
  ∧ (q = false → rate = 0 →
      TradeCalculator.price_from_usd_target entry dir usd_target pip contract q rate lots
        = .error .zeroDivisionError)
  ∧ (q = true ∨ rate ≠ 0 →
      TradeCalculator.price_from_usd_target entry dir usd_target pip contract q rate lots
        = .ok (price_from_usd_target entry dir usd_target pip contract q rate lots)) := by
  refine ⟨?_, ?_, ?_, ?_⟩
  · rw [price_from_usd_target]
    by_cases h : pip_value_usd pip contract q rate = 0 ∨ lots = 0 <;> simp [h]
  · intro h1 h2
    rw [price_from_usd_target, if_neg (by push_neg; exact ⟨h1, h2⟩)]
  · intro hq hr
    subst hq
    rw [TradeCalculator.price_from_usd_target]
    simp [TradeCalculator.pip_value_usd, hr]
  · intro h
    rw [TradeCalculator.price_from_usd_target, TC_pip_value_usd_ok _ _ _ _ h,
      price_from_usd_target]
    by_cases hc : pip_value_usd pip contract q rate = 0 ∨ lots = 0 <;> simp [hc]

/-- C3 witness: concrete instances of the amended dichotomy. -/
theorem C3_solvability_witness :
    price_from_usd_target 100 "Long" 50 1 1 true 1 0 = none
  ∧ price_from_usd_target 100 "Long" 50 1 1 true 1 1 = some (100 + 50 / (1 * 1) * 1) := by
  constructor
  · exact (C3_solvability 100 50 1 1 1 0 true "Long").1.mpr (Or.inr rfl)
  · have h := (C3_solvability 100 50 1 1 1 1 true "Long").2.1
      (by norm_num [pip_value_usd]) (by norm_num)
    simpa [pip_value_usd] using h

/-- C3 counterexample: in trade_tracker_1.py, with `quote_usd = false` and
rate 0 (pip value nonzero per the spec's fallback, lots nonzero), the call
raises ZeroDivisionError: it neither returns `NotSolvable` nor the price
`100 + (50/(1·1))·1 = 150` the claim requires. -/
theorem C3_counterexample :
    TradeCalculator.price_from_usd_target 100 "Long" 50 1 1 false 0 1
      = .error .zeroDivisionError
  ∧ (Except.error PyExn.zeroDivisionError : Except PyExn (Option ℚ)) ≠ .ok (some 150)
  ∧ (Except.error PyExn.zeroDivisionError : Except PyExn (Option ℚ)) ≠ .ok none := by
  refine ⟨?_, ?_, ?_⟩
  · simp [TradeCalculator.price_from_usd_target, TradeCalculator.pip_value_usd]
  · intro h; cases h
  · intro h; cases h

/-- C8: the claim that `pipsBetween` fails with `InvalidNumeric` on
`pipSize == 0` is false: no numeric validation exists and the division
raises an uncaught ZeroDivisionError instead (amended claim); for
`pipSize ≠ 0` it does return `(price-entry)/pipSize` for "Long" and
`(entry-price)/pipSize` otherwise. -/
theorem C8_calc_pips (entry price pip : ℚ) (dir : String) :
    (pip = 0 → calc_pips entry price pip dir = .error .zeroDivisionError)
  ∧ (pip ≠ 0 → calc_pips entry price pip dir
      = .ok (if dir = "Long" then (price - entry) / pip else (entry - price) / pip)) := by
  constructor
  · intro h; simp [calc_pips, h]
  · intro h; simp [calc_pips, h, pips_formula]

/-- C8 witness: both branches at concrete inputs. -/
theorem C8_calc_pips_witness :
    calc_pips 0 5 0 "Long" = .error .zeroDivisionError
  ∧ calc_pips 0 5 1 "Short" = .ok (-5) := by
  refine ⟨(C8_calc_pips 0 5 0 "Long").1 rfl, ?_⟩
  have h := (C8_calc_pips 0 5 1 "Short").2 (by norm_num)
  simpa using h

/-- C8 counterexample: at `entry=1, price=2, pipSize=0` the code produces a
ZeroDivisionError, which is not the `InvalidNumeric` error the claim
requires. -/
theorem C8_counterexample :
    calc_pips 1 2 0 "Long" = .error .zeroDivisionError
  ∧ (Except.error PyExn.zeroDivisionError : Except PyExn ℚ)
      ≠ .error .invalidNumeric := by
  constructor
  · simp [calc_pips]
  · intro h
    cases h

/-- C9: antisymmetry in the direction: for every entry/price pair and
nonzero pip size, the "Long" pips are the negation of the "Short" pips. -/
theorem C9_direction_antisymmetry (entry price pip : ℚ) (h : pip ≠ 0) :
    ∃ v : ℚ, calc_pips entry price pip "Long" = .ok v
      ∧ calc_pips entry price pip "Short" = .ok (-v) := by
  refine ⟨(price - entry) / pip, ?_, ?_⟩
  · simp [calc_pips, h, pips_formula]
  · simp [calc_pips, h, pips_formula]
    ring

/-- C9 witness: entry 1, price 3, pip size 1. -/
theorem C9_direction_antisymmetry_witness :
    ∃ v : ℚ, calc_pips 1 3 1 "Long" = .ok v ∧ calc_pips 1 3 1 "Short" = .ok (-v) :=
  C9_direction_antisymmetry 1 3 1 (by norm_num)

/-- C10: with a USD target of exactly 0, a nonzero pip value and nonzero
lots, the solved price is exactly the entry, for either direction; this
holds of both implementations (for trade_tracker_1.py whenever its pip
value computation returns a value at all). -/
theorem C10_zero_target (entry pip contract rate lots : ℚ) (q : Bool) (dir : String)
    (hpv : pip_value_usd pip contract q rate ≠ 0) (hl : lots ≠ 0) :
    price_from_usd_target entry dir 0 pip contract q rate lots = some entry
  ∧ ∀ pv : ℚ, TradeCalculator.pip_value_usd pip contract q rate = .ok pv → pv ≠ 0 →
      TradeCalculator.price_from_usd_target entry dir 0 pip contract q rate lots
        = .ok (some entry) := by
  constructor
  · rw [price_from_usd_target, if_neg (by push_neg; exact ⟨hpv, hl⟩)]
    simp
  · intro pv hok hpv1
    rw [TradeCalculator.price_from_usd_target, hok]
    simp [hpv1, hl]

/-- C10 witness: entry 100 with a Short direction solves to 100. -/
theorem C10_zero_target_witness :
    price_from_usd_target 100 "Short" 0 1 1 true 1 1 = some 100 :=
  (C10_zero_target 100 1 1 1 1 true "Short" (by norm_num [pip_value_usd]) (by norm_num)).1

lemma length_insert_desc (t : Trade) (l : List Trade) :
    (insert_desc t l).length = l.length + 1 := by
  induction l with
  | nil => rfl
  | cons u us ih =>
    rw [insert_desc]
    by_cases h : t.timestamp ≤ u.timestamp <;> simp [h, ih]

lemma mem_insert_desc (a t : Trade) (l : List Trade) :
    a ∈ insert_desc t l ↔ a = t ∨ a ∈ l := by
  induction l with
  | nil => simp [insert_desc]
  | cons u us ih =>
    rw [insert_desc]
    by_cases h : t.timestamp ≤ u.timestamp <;> simp [h, ih] <;> tauto

lemma mem_sort_desc (a : Trade) (l : List Trade) : a ∈ sort_desc l ↔ a ∈ l := by
  induction l with
  | nil => simp [sort_desc]
  | cons u us ih => simp [sort_desc, mem_insert_desc, ih]

lemma length_sort_desc (l : List Trade) : (sort_desc l).length = l.length := by
  induction l with
  | nil => rfl
  | cons u us ih => simp [sort_desc, length_insert_desc, ih]

/-- When the LIMIT is at least the table size, every matching row appears
in the query result. -/
lemma mem_run_query_of (t : Trade) (trades : List Trade) (limit : ℕ) (filters : Filters)
    (hm : matches_filters filters t = true) (ht : t ∈ trades)
    (hl : trades.length ≤ limit) : t ∈ run_query trades limit filters := by
  rw [run_query]
  have h1 : t ∈ trades.filter (matches_filters filters) := List.mem_filter.mpr ⟨ht, hm⟩
  have h2 : (sort_desc (trades.filter (matches_filters filters))).length ≤ limit := by
    rw [length_sort_desc]
    exact le_trans (List.length_filter_le _ _) hl
  rw [List.take_of_length_le h2]
  exact (mem_sort_desc _ _).mpr h1

/-- C6: every `add_trade` or `delete_trade` empties the whole cache, so a
`get_trades` immediately after a mutation always returns the fresh SELECT
over the mutated table — never a cached result predating the write — for
every limit, filter set and clock value; moreover, when the new record
matches the filters and the limit admits the whole table, the query result
contains the newly added record. -/
theorem C6_cache_write_invalidation (db : TradeDB) (td : TradeData) (tid limit now : ℕ)
    (filters : Filters) :
    (get_trades (add_trade db td).2 limit filters now).1
      = run_query (add_trade db td).2.trades limit filters
  ∧ (get_trades (delete_trade db tid).2 limit filters now).1
      = run_query (delete_trade db tid).2.trades limit filters
  ∧ (matches_filters filters { toTradeData := td, id := db.next_id } = true →
      db.trades.length + 1 ≤ limit →
      ({ toTradeData := td, id := db.next_id } : Trade)
        ∈ (get_trades (add_trade db td).2 limit filters now).1) := by
  refine ⟨rfl, rfl, ?_⟩
  intro hm hl
  show _ ∈ run_query (add_trade db td).2.trades limit filters
  apply mem_run_query_of _ _ _ _ hm
  · simp [add_trade]
  · simpa [add_trade] using hl

/-- C6 witness: on a fresh store, adding a record and querying right away
(zero elapsed time, well inside the freshness window) returns the record. -/
theorem C6_cache_write_invalidation_witness :
    ({ toTradeData := ⟨5, "XAUUSD", "Long", none⟩, id := 1 } : Trade)
      ∈ (get_trades (add_trade TradeDB.empty ⟨5, "XAUUSD", "Long", none⟩).2 10 [] 0).1 :=
  (C6_cache_write_invalidation TradeDB.empty ⟨5, "XAUUSD", "Long", none⟩ 0 10 0 []).2.2
    rfl (by norm_num [TradeDB.empty])

/-- C5: the claim that `delete_trade` returns whether a record was actually
removed is wrong on the code: the return value is
`conn.total_changes > 0`, sqlite's connection-lifetime change counter.  On
a fresh connection deleting a never-added id does return `false`, but after
any successful insert the same delete of a never-added id returns `true`
while leaving the ledger size unchanged. -/
theorem C5_delete_total_changes_bug :
    (delete_trade TradeDB.empty 99).1 = false
  ∧ (delete_trade (add_trade TradeDB.empty ⟨1, "XAUUSD", "Long", none⟩).2 99).1 = true
  ∧ (delete_trade (add_trade TradeDB.empty ⟨1, "XAUUSD", "Long", none⟩).2 99).2.trades.length
      = (add_trade TradeDB.empty ⟨1, "XAUUSD", "Long", none⟩).2.trades.length := by
  refine ⟨rfl, ?_, ?_⟩ <;> rfl

lemma filter_pos_eq_nil_iff (records : List (Option ℚ)) :
    (fillna records).filter (fun v => decide (0 < v)) = []
      ↔ ∀ r ∈ records, r.getD 0 ≤ 0 := by
  rw [List.filter_eq_nil_iff]
  simp [fillna]

lemma filter_neg_eq_nil_iff (records : List (Option ℚ)) :
    (fillna records).filter (fun v => decide (v < 0)) = []
      ↔ ∀ r ∈ records, 0 ≤ r.getD 0 := by
  rw [List.filter_eq_nil_iff]
  simp [fillna]

/-- C4 (amended): `update_dashboard` computes nothing on the empty list;
on a non-empty list it coerces undefined realized-USD values to 0 and then
reports the coerced sum, a win rate equal to the count of positive coerced
values over the total record count (not over the count of defined values),
and average win/loss that are the means of the positive/negative coerced
subsets but are NaN (`none`), not 0, when the subset is empty. -/
theorem C4_aggregate (records : List (Option ℚ)) :
    update_dashboard [] = none
  ∧ (records ≠ [] →
      ∃ s, update_dashboard records = some s
        ∧ s.total_profit = (fillna records).sum
        ∧ s.win_rate
            = (records.countP (fun r => decide (0 < r.getD 0)) : ℚ) / (records.length : ℚ)
        ∧ (s.avg_win = none ↔ ∀ r ∈ records, r.getD 0 ≤ 0)
        ∧ (s.avg_loss = none ↔ ∀ r ∈ records, 0 ≤ r.getD 0)
        ∧ ((fillna records).filter (fun v => decide (0 < v)) ≠ [] →
            s.avg_win = some (((fillna records).filter (fun v => decide (0 < v))).sum
              / (((fillna records).filter (fun v => decide (0 < v))).length : ℚ)))
        ∧ ((fillna records).filter (fun v => decide (v < 0)) ≠ [] →
            s.avg_loss = some (((fillna records).filter (fun v => decide (v < 0))).sum
              / (((fillna records).filter (fun v => decide (v < 0))).length : ℚ)))) := by
  refine ⟨rfl, ?_⟩
  intro h
  rw [update_dashboard, if_neg h]
  refine ⟨_, rfl, rfl, ?_, ?_, ?_, ?_, ?_⟩
  · simp only [fillna, ← List.countP_eq_length_filter, List.countP_map, List.length_map]
    rfl
  · rw [show (if (fillna records).filter (fun v => decide (0 < v)) = []
        then (none : Option ℚ) else some (((fillna records).filter
          (fun v => decide (0 < v))).sum
            / (((fillna records).filter (fun v => decide (0 < v))).length : ℚ))) = none
        ↔ (fillna records).filter (fun v => decide (0 < v)) = [] from by
      by_cases hw : (fillna records).filter (fun v => decide (0 < v)) = [] <;> simp [hw]]
    exact filter_pos_eq_nil_iff records
  · rw [show (if (fillna records).filter (fun v => decide (v < 0)) = []
        then (none : Option ℚ) else some (((fillna records).filter
          (fun v => decide (v < 0))).sum
            / (((fillna records).filter (fun v => decide (v < 0))).length : ℚ))) = none
        ↔ (fillna records).filter (fun v => decide (v < 0)) = [] from by
      by_cases hw : (fillna records).filter (fun v => decide (v < 0)) = [] <;> simp [hw]]
    exact filter_neg_eq_nil_iff records
  · intro hw
    simp [hw]
  · intro hw
    simp [hw]

/-- C4 witness: a two-record list with one win and one loss has computed
metrics. -/
theorem C4_aggregate_witness :
    ([some (2 : ℚ), some (-4)] ≠ ([] : List (Option ℚ)))
  ∧ ∃ s, update_dashboard [some 2, some (-4)] = some s := by
  refine ⟨by simp, ?_⟩
  obtain ⟨s, hs, -⟩ := (C4_aggregate [some 2, some (-4)]).2 (by simp)
  exact ⟨s, hs⟩

/-- C4 counterexample: on `[realizedUSD = 5, realizedUSD undefined]` the
claim demands `winRate = count(>0)/count(defined) = 1/1 = 1`, an avgLoss of
0 and no NaN; the code coerces the undefined value to 0 and reports
`winRate = 1/2 ≠ 1` and an avgLoss of NaN (`none`). -/
theorem C4_counterexample :
    update_dashboard [some 5, none]
      = some { total_profit := 5, win_rate := 1/2, avg_win := some 5, avg_loss := none }
  ∧ ((1 : ℚ)/2) ≠ 1 := by
  constructor
  · rw [update_dashboard, if_neg (by simp)]
    norm_num [fillna, List.filter_cons]
  · norm_num

lemma derived_pair_char (entry pip_size pip_val lots : ℚ) (price : Option ℚ) (dir : String)
    (hpip : pip_size ≠ 0) :
    ∃ po : Option ℚ, opt_pips entry price pip_size dir = .ok po
      ∧ (po.isSome ↔ price.isSome)
      ∧ ((opt_usd po pip_val lots).isSome ↔ price.isSome) := by
  cases price with
  | none => exact ⟨none, rfl, by simp, by simp [opt_usd]⟩
  | some p =>
    refine ⟨some (pips_formula entry p pip_size dir), ?_, by simp, by simp [opt_usd]⟩
    simp [opt_pips, calc_pips, hpip, Except.map]

lemma derived1_pair_char (entry pip_size pip_val lots : ℚ) (price : Option ℚ) (dir : String)
    (hpip : pip_size ≠ 0) :
    ∃ po : Option ℚ, opt_pips1 entry price pip_size dir = .ok po
      ∧ (price = none → po = none ∧ opt_usd1 po pip_val lots = none)
      ∧ (∀ s, price = some s →
          ((po = none ↔ s = 0)
           ∧ (opt_usd1 po pip_val lots = none
                ↔ s = 0 ∨ pips_formula entry s pip_size dir = 0))) := by
  cases price with
  | none =>
    exact ⟨none, rfl, fun _ => ⟨rfl, rfl⟩, by simp⟩
  | some p =>
    by_cases hp : p = 0
    · refine ⟨none, by simp [opt_pips1, hp], by simp, ?_⟩
      intro s hs
      rw [Option.some.inj hs] at hp
      simp [opt_usd1, hp]
    · refine ⟨some (pips_formula entry p pip_size dir),
        by simp [opt_pips1, calc_pips, hpip, hp, Except.map], by simp, ?_⟩
      intro s hs
      rw [Option.some.inj hs] at hp ⊢
      constructor
      · simp [hp]
      · by_cases hx : pips_formula entry s pip_size dir = 0 <;> simp [opt_usd1, hx, hp]

/-- C7 (amended): with a nonzero pip size (every catalog entry), the
trade_tracker.py save path stores each derived field as absent exactly when
its input price is absent — a zero input price or a zero derived value is
still stored; the trade_tracker_1.py save path instead tests truthiness, so
a derived pips field is also absent when its input price equals 0, and a
derived USD field is additionally absent when the derived pips value equals
0. -/
theorem C7_derived_null_pattern (entry pip_size pip_val lots : ℚ)
    (stop tp exit_price : Option ℚ) (dir : String) (hpip : pip_size ≠ 0) :
    (∃ d, save_trade_derived entry stop tp exit_price pip_size pip_val lots dir = .ok d
       ∧ (d.pips_to_sl.isSome ↔ stop.isSome) ∧ (d.usd_to_sl.isSome ↔ stop.isSome)
       ∧ (d.pips_to_tp.isSome ↔ tp.isSome) ∧ (d.usd_to_tp.isSome ↔ tp.isSome)
       ∧ (d.realized_pips.isSome ↔ exit_price.isSome)
       ∧ (d.realized_usd.isSome ↔ exit_price.isSome))
  ∧ (∃ d, save_trade_derived1 entry stop tp exit_price pip_size pip_val lots dir = .ok d
       ∧ (stop = none → d.pips_to_sl = none ∧ d.usd_to_sl = none)
       ∧ (∀ s, stop = some s →
           ((d.pips_to_sl = none ↔ s = 0)
            ∧ (d.usd_to_sl = none ↔ s = 0 ∨ pips_formula entry s pip_size dir = 0)))
       ∧ (tp = none → d.pips_to_tp = none ∧ d.usd_to_tp = none)
       ∧ (∀ s, tp = some s →
           ((d.pips_to_tp = none ↔ s = 0)
            ∧ (d.usd_to_tp = none ↔ s = 0 ∨ pips_formula entry s pip_size dir = 0)))
       ∧ (exit_price = none → d.realized_pips = none ∧ d.realized_usd = none)
       ∧ (∀ s, exit_price = some s →
           ((d.realized_pips = none ↔ s = 0)
            ∧ (d.realized_usd = none ↔ s = 0 ∨ pips_formula entry s pip_size dir = 0)))) := by
  constructor
  · obtain ⟨psl, hsl, hsl1, hsl2⟩ := derived_pair_char entry pip_size pip_val lots stop dir hpip
    obtain ⟨ptp, htp, htp1, htp2⟩ := derived_pair_char entry pip_size pip_val lots tp dir hpip
    obtain ⟨pre, hre, hre1, hre2⟩ :=
      derived_pair_char entry pip_size pip_val lots exit_price dir hpip
    refine ⟨⟨psl, opt_usd psl pip_val lots, ptp, opt_usd ptp pip_val lots,
      pre, opt_usd pre pip_val lots⟩, ?_, hsl1, hsl2, htp1, htp2, hre1, hre2⟩
    unfold save_trade_derived
    rw [hsl, htp, hre]
  · obtain ⟨psl, hsl, hsl1, hsl2⟩ := derived1_pair_char entry pip_size pip_val lots stop dir hpip
    obtain ⟨ptp, htp, htp1, htp2⟩ := derived1_pair_char entry pip_size pip_val lots tp dir hpip
    obtain ⟨pre, hre, hre1, hre2⟩ :=
      derived1_pair_char entry pip_size pip_val lots exit_price dir hpip
    refine ⟨⟨psl, opt_usd1 psl pip_val lots, ptp, opt_usd1 ptp pip_val lots,
      pre, opt_usd1 pre pip_val lots⟩, ?_, ?_, ?_, ?_, ?_, ?_, ?_⟩
    · unfold save_trade_derived1
      rw [hsl, htp, hre]
    · intro h
      exact hsl1 h
    · exact hsl2
    · intro h
      exact htp1 h
    · exact htp2
    · intro h
      exact hre1 h
    · exact hre2

/-- C7 witness: exit price present with value 0 still yields stored
realized fields in trade_tracker.py's save path. -/
theorem C7_derived_null_pattern_witness :
    ∃ d, save_trade_derived 100 none none (some 100) 1 1 1 "Long" = .ok d
      ∧ (d.realized_pips.isSome ↔ (some (100 : ℚ)).isSome)
      ∧ (d.realized_usd.isSome ↔ (some (100 : ℚ)).isSome) := by
  obtain ⟨⟨d, hd, -, -, -, -, h1, h2⟩, -⟩ :=
    C7_derived_null_pattern 100 1 1 1 none none (some 100) "Long" (by norm_num)
  exact ⟨d, hd, h1, h2⟩

/-- C7 counterexample: in trade_tracker_1.py, saving a trade with entry 100
and stop 100 (stop present, zero pips to stop) stores `pips_to_sl = 0` but
`usd_to_sl = NULL`, although the claim requires USD-at-stop to be absent
exactly when the stop price is absent. -/
theorem C7_counterexample :
    save_trade_derived1 100 (some 100) none none 1 1 1 "Long"
      = .ok { pips_to_sl := some 0, usd_to_sl := none, pips_to_tp := none,
              usd_to_tp := none, realized_pips := none, realized_usd := none }
  ∧ (none : Option ℚ).isSome ≠ (some (100 : ℚ)).isSome := by
  constructor
  · unfold save_trade_derived1
    norm_num [opt_pips1, calc_pips, pips_formula, opt_usd1, usd_from_pips, Except.map]
  · decide

end ForexCalc
